import Mathlib

/-!
Shallow embedding of the EdgeAI_Doctor_App core (src/edge_core) in Lean 4.

The embedding mirrors the Python source:
  * `DataManager.store_vital_sign` / `get_patient_vitals_history` (DataManager.py)
  * `ProductionVitalsPredictor._prepare_features` / `predict` and the
    module-level `predict_trend` (ProductionVitalsPredictor.py)
  * `AlertManager.generate_alert` / `get_alert_statistics` (AlertManager.py)

Modelling conventions:
  * pandas DataFrames of the wide vitals table become `List Row`; DataFrames
    built from dict records become `List Rec` (assoc lists of column/cell).
  * Python numbers are modelled as exact rationals; a cell is a number,
    a string, or null (None/NaN).
  * Fallible operations return `Except String _` / `Option _`, where an
    `Except.error` / `none` result models an uncaught Python exception
    (KeyError, IndexError).
  * pandas element-wise `==` treats None as matching nothing (`pdEq`), while
    the Python `in` membership test over the values array lets None match
    None (`pyEq`); both are embedded.
-/

namespace EdgeAI

/-- A pandas cell: a numeric value, a string, or null (None / NaN). -/
inductive Cell where
  | num (q : ℚ)
  | str (s : String)
  | null
deriving DecidableEq, Repr

/-- The five canonical ML feature columns of DataManager.feature_columns. -/
inductive Feature where
  | heart_rate
  | bp_systolic
  | bp_diastolic
  | oxygen_saturation
  | temperature
deriving DecidableEq, Repr

/-- One row of the wide vitals table data/vitals.csv:
columns patient_id, timestamp, the five feature columns, sensor. -/
structure Row where
  patient_id : Option String
  timestamp : Nat
  heart_rate : Cell
  bp_systolic : Cell
  bp_diastolic : Cell
  oxygen_saturation : Cell
  temperature : Cell
  sensor : Option String
deriving DecidableEq, Repr

/-- A vital reading as passed to `store_vital_sign` (duck-typed dict/object);
`none` / `Cell.null` model an absent field (`vital.get(...)` returning None). -/
structure Vital where
  patient_id : Option String
  sensor_type : Option String
  value : Cell
  timestamp : Nat
deriving DecidableEq, Repr

/-- Embedding of `DataManager.feature_columns` (also the predictor's fallback feature
name list). -/
def feature_columns : List String :=
  ["heart_rate", "bp_systolic", "bp_diastolic", "oxygen_saturation", "temperature"]

/-- The sensor-type → feature-column mapping inside `store_vital_sign`. -/
def sensorFeature : Option String → Option Feature
  | some "ECG" => some .heart_rate
  | some "BP_SYS" => some .bp_systolic
  | some "BP_DIA" => some .bp_diastolic
  | some "SpO2" => some .oxygen_saturation
  | some "Temp" => some .temperature
  | _ => none

/-- Read a feature column of a row. -/
def Row.getFeature (r : Row) : Feature → Cell
  | .heart_rate => r.heart_rate
  | .bp_systolic => r.bp_systolic
  | .bp_diastolic => r.bp_diastolic
  | .oxygen_saturation => r.oxygen_saturation
  | .temperature => r.temperature

/-- Write a feature column of a row (`df.at[idx, feature_col] = value`). -/
def Row.setFeature (r : Row) (f : Feature) (c : Cell) : Row :=
  match f with
  | .heart_rate => { r with heart_rate := c }
  | .bp_systolic => { r with bp_systolic := c }
  | .bp_diastolic => { r with bp_diastolic := c }
  | .oxygen_saturation => { r with oxygen_saturation := c }
  | .temperature => { r with temperature := c }

/-- pandas element-wise `==` against a patient id: None matches nothing. -/
def pdEq : Option String → Option String → Bool
  | some a, some b => a == b
  | _, _ => false

/-- Python `pid in df["patient_id"].values`: None does match None. -/
def pyEq : Option String → Option String → Bool
  | some a, some b => a == b
  | none, none => true
  | _, _ => false

/-- The in-place update done on the matched row:
feature column := value, timestamp := timestamp, sensor := sensor_type. -/
def applyVital (r : Row) (f : Feature) (v : Vital) : Row :=
  { r.setFeature f v.value with timestamp := v.timestamp, sensor := v.sensor_type }

/-- The fresh row built in the else-branch of `store_vital_sign`:
all feature columns None, then patient_id/timestamp/sensor/feature set. -/
def newRow (f : Feature) (v : Vital) : Row :=
  (Row.mk v.patient_id v.timestamp .null .null .null .null .null v.sensor_type).setFeature f v.value

/-- Update the first element satisfying `p` (helper for the last-index update). -/
def updateFirst (p : Row → Bool) (g : Row → Row) : List Row → List Row
  | [] => []
  | r :: rs => if p r then g r :: rs else r :: updateFirst p g rs

/-- Update the last element satisfying `p`
(models `df[df["patient_id"] == pid].index[-1]` followed by `df.at` updates). -/
def updateLast (p : Row → Bool) (g : Row → Row) (df : List Row) : List Row :=
  (updateFirst p g df.reverse).reverse

/-- Embedding of `DataManager.store_vital_sign` on the loaded table `df`.
`none` models the uncaught IndexError that occurs when the membership test
succeeds (None matching None) but the pandas filter matches no row. -/
def storeVitalSign (df : List Row) (v : Vital) : Option (List Row) :=
  match sensorFeature v.sensor_type with
  | none => some df
  | some f =>
    if df.any (fun r => pyEq v.patient_id r.patient_id) then
      if df.any (fun r => pdEq r.patient_id v.patient_id) then
        some (updateLast (fun r => pdEq r.patient_id v.patient_id) (fun r => applyVital r f v) df)
      else
        none
    else
      some (df ++ [newRow f v])

/-- pandas `DataFrame.tail(n)`: the last `n` rows. -/
def pdTail (l : List Row) (n : Nat) : List Row :=
  l.drop (l.length - n)

/-- Embedding of `DataManager.get_patient_vitals_history`; the `sensor_type` argument is
accepted but never used, exactly as in the source. -/
def getPatientVitalsHistory (df : List Row) (patient_id : String)
    (sensor_type : Option String) (limit : Nat) : List Row :=
  let patient_data := df.filter (fun r => pdEq r.patient_id (some patient_id))
  pdTail patient_data limit

/-! ## ProductionVitalsPredictor -/

/-- A record (dict) row of a DataFrame built from a list of dicts:
an association list from column name to cell. -/
abbrev Rec := List (String × Cell)

/-- Read a cell of a record; a missing key reads as null (NaN). -/
def getCell (r : Rec) (c : String) : Cell :=
  match r.find? (fun p => p.1 == c) with
  | some p => p.2
  | none => .null

/-- First-appearance-order deduplication of column names. -/
def dedupFirst : List String → List String
  | [] => []
  | c :: cs => c :: (dedupFirst cs).filter (fun x => !(x == c))

/-- The column set of a DataFrame built from dict records:
the union of the records' keys, in first-appearance order. -/
def frameCols (rows : List Rec) : List String :=
  dedupFirst (rows.map (fun r => r.map Prod.fst)).flatten

/-- The predictor: an optional scoring artifact (the pickled model, embedded
as a per-row scoring function) plus its declared feature names.  With no
artifact the source sets `model = None` and `feature_names = []`. -/
structure ProductionVitalsPredictor where
  model : Option (Rec → ℚ)
  feature_names : List String

/-- Whether the input frame has a column (`col in df.columns`, a frame-level
test: the union of the records' keys). -/
def frameHasCol (rows : List Rec) (c : String) : Bool :=
  (frameCols rows).contains c

/-- One output row of `_prepare_features`, following the assignment loop
`safe_df[col] = df[col] if col in df.columns else 0` over `names` in order.
`safe_df` starts as an empty (zero-row) frame, so a scalar 0 assigned before
any present column exists on an empty index; when the first present column's
Series is assigned, the frame adopts its index and those earlier columns are
reindexed to NaN.  The `adopted` flag records whether a present column has
been assigned yet: before adoption an absent column ends up NaN (null),
after adoption it is broadcast to 0; a present column always copies the
input cell (including nulls). -/
def prepareRow (rows : List Rec) (r : Rec) : List String → Bool → Rec
  | [], _ => []
  | c :: cs, adopted =>
    if frameHasCol rows c then
      (c, getCell r c) :: prepareRow rows r cs true
    else
      (c, if adopted then Cell.num 0 else Cell.null) :: prepareRow rows r cs adopted

/-- Embedding of `ProductionVitalsPredictor._prepare_features` on the whole
input frame: if none of the feature names is a column of the input, every
assignment is a scalar on the empty frame and the result keeps zero rows;
otherwise the index is adopted from the first present column and the result
has one row per input row, built by the assignment loop of `prepareRow`. -/
def prepareFeatures (names : List String) (rows : List Rec) : List Rec :=
  if names.any (fun c => frameHasCol rows c) then
    rows.map (fun r => prepareRow rows r names false)
  else
    []

/-- Embedding of `ProductionVitalsPredictor.predict`: with no model, `[0] * len(features)`
(one dummy output per row of the given frame, and a UI warning is shown);
otherwise the model scores the rows of the prepared feature frame. -/
def predictList (P : ProductionVitalsPredictor) (features : List Rec) : List ℚ :=
  match P.model with
  | none => features.map (fun _ => 0)
  | some m => (prepareFeatures P.feature_names features).map m

/-- The trend dict returned by `predict_trend`. -/
structure TrendResult where
  patient_id : String
  prediction_type : String
  predicted_value : ℚ
  confidence : ℚ
  risk : String
deriving DecidableEq, Repr

/-- The success result of `predict_trend`: confidence is the constant 0.85 and
risk is "high" exactly when the first prediction exceeds 100. -/
def mkTrendResult (patient_id : String) (v : ℚ) : TrendResult :=
  { patient_id := patient_id, prediction_type := "trend", predicted_value := v,
    confidence := 85 / 100, risk := if v > 100 then "high" else "normal" }

/-- Name a non-null cell when it is used as a pivot column label. -/
def cellName : Cell → String
  | .num q => toString q
  | .str s => s
  | .null => ""

/-- Insertion into a name-sorted cell list (pandas sorts pivot labels). -/
def insertSorted (x : Cell) : List Cell → List Cell
  | [] => [x]
  | y :: ys => if cellName x ≤ cellName y then x :: y :: ys else y :: insertSorted x ys

/-- Sort cells by their label. -/
def sortCells (l : List Cell) : List Cell :=
  l.foldr insertSorted []

/-- Deduplicate cells, keeping first occurrences. -/
def dedupCells : List Cell → List Cell
  | [] => []
  | c :: cs => c :: (dedupCells cs).filter (fun x => !(x == c))

/-- Embedding of `pivot_table(index="patient_id", columns="sensor", values="value",
aggfunc="last").reset_index()`: drop rows with a null key or value, group by
patient id, one column per sensor label (sorted), cell = last value of the
group (null when the group is empty). -/
def pivotTable (history : List Rec) : List Rec :=
  let rows := history.filter (fun r =>
    !(getCell r "patient_id" == Cell.null) && !(getCell r "sensor" == Cell.null) &&
      !(getCell r "value" == Cell.null))
  let pids := sortCells (dedupCells (rows.map (fun r => getCell r "patient_id")))
  let sensors := sortCells (dedupCells (rows.map (fun r => getCell r "sensor")))
  pids.map (fun p =>
    ("patient_id", p) ::
      sensors.map (fun s =>
        (cellName s,
          (rows.filter (fun r =>
            getCell r "patient_id" == p && getCell r "sensor" == s)).foldl
            (fun _ r => getCell r "value") Cell.null)))

/-- Normalize dict records to a rectangular frame (every row gets every
column, missing cells null), as `pd.DataFrame(history)` does. -/
def normalizeFrame (rows : List Rec) : List Rec :=
  rows.map (fun r => (frameCols rows).map (fun c => (c, getCell r c)))

/-- The `rename_map` applied to the pivoted columns. -/
def renameCol : String → String
  | "ECG" => "heart_rate"
  | "BP_SYS" => "bp_systolic"
  | "BP_DIA" => "bp_diastolic"
  | "SpO2" => "oxygen_saturation"
  | "Temp" => "temperature"
  | c => c

/-- Embedding of `df_pivot.rename(columns=rename_map)`. -/
def renameFrame (rows : List Rec) : List Rec :=
  rows.map (fun r => r.map (fun p => (renameCol p.1, p.2)))

/-- The `select_dtypes(include="number")` column test: a column is numeric when no
cell is a string and at least one cell is a number (an all-null column keeps
object dtype). -/
def numericCols (rows : List Rec) : List String :=
  (frameCols rows).filter (fun c =>
    rows.all (fun r => match getCell r c with | .str _ => false | _ => true) &&
      rows.any (fun r => match getCell r c with | .num _ => true | _ => false))

/-- Embedding of `df_pivot.select_dtypes(include="number")`. -/
def selectNumeric (rows : List Rec) : List Rec :=
  let cols := numericCols rows
  rows.map (fun r => cols.map (fun c => (c, getCell r c)))

/-- pandas `DataFrame.empty`: no rows or no columns. -/
def frameEmpty (rows : List Rec) : Bool :=
  rows.isEmpty || (frameCols rows).isEmpty

/-- The all-zero fallback row of `predict_trend`. -/
def zerosRec : Rec :=
  [("heart_rate", .num 0), ("bp_systolic", .num 0), ("bp_diastolic", .num 0),
   ("oxygen_saturation", .num 0), ("temperature", .num 0)]

/-- Embedding of the zero-row fallback: if `numeric_df` is empty it becomes a one-row all-zero frame. -/
def fallbackFrame (numeric_df : List Rec) : List Rec :=
  if frameEmpty numeric_df then [zerosRec] else numeric_df

/-- The tail of `predict_trend` after the pivot branch: rename, numeric
selection, zero fallback, prediction, and the result dict.  An empty
prediction list models the IndexError of `prediction_value[0]`. -/
def finishTrend (P : ProductionVitalsPredictor) (patient_id : String)
    (df_pivot : List Rec) : Except String (Option TrendResult) :=
  match predictList P (fallbackFrame (selectNumeric (renameFrame df_pivot))) with
  | [] => Except.error "IndexError"
  | v :: _ => Except.ok (some (mkTrendResult patient_id v))

/-- The module-level `predict_trend(self, patient_id, history)`:
empty history returns None; a history with a "sensor" column is pivoted on
`values="value"` — which raises KeyError when no "value" (or "patient_id")
column exists; otherwise the frame is used as-is. -/
def predictTrend (P : ProductionVitalsPredictor) (patient_id : String)
    (history : List Rec) : Except String (Option TrendResult) :=
  if history.isEmpty then Except.ok none
  else
    let cols := frameCols history
    if cols.contains "sensor" then
      if !(cols.contains "value") then Except.error "KeyError: value"
      else if !(cols.contains "patient_id") then Except.error "KeyError: patient_id"
      else finishTrend P patient_id (pivotTable history)
    else
      finishTrend P patient_id (normalizeFrame history)

/-! ## AlertManager -/

/-- A vital as inspected by `generate_alert`: `sensor_type = none` models an
object with no `sensor_type` attribute (e.g. a plain dict reading, for which
`hasattr` is false); the value is compared numerically against thresholds. -/
structure TwinVital where
  sensor_type : Option String
  value : ℚ
deriving DecidableEq, Repr

/-- The digital twin view consumed by `generate_alert` (`twin.get("vitals")`). -/
structure Twin where
  vitals : List TwinVital
deriving DecidableEq, Repr

/-- The `AlertManager.__init__` threshold table: one (low, high) band per feature. -/
def thresholds : String → Option (ℚ × ℚ)
  | "heart_rate" => some (60, 100)
  | "bp_systolic" => some (90, 120)
  | "bp_diastolic" => some (60, 80)
  | "oxygen_saturation" => some (95, 100)
  | "temperature" => some (361 / 10, 375 / 10)
  | _ => none

/-- Python `str.lower()` (character-wise lowercasing). -/
def pyLower (s : String) : String :=
  ⟨s.data.map Char.toLower⟩

/-- Python `str.capitalize()`: first character upper-cased, rest lower-cased. -/
def pyCapitalize (s : String) : String :=
  match s.data with
  | [] => ""
  | c :: cs => ⟨Char.toUpper c :: cs.map Char.toLower⟩

/-- The alert-message list built by the vitals loop of `generate_alert`:
a vital is examined only when it has a `sensor_type` attribute whose
lowercasing is a threshold key; a value strictly outside the band appends one
out-of-range message. -/
def generateAlertEntries (vitals : List TwinVital) : List String :=
  vitals.foldr
    (fun vital acc =>
      match vital.sensor_type with
      | none => acc
      | some st =>
        let sensor := pyLower st
        match thresholds sensor with
        | none => acc
        | some lh =>
          if vital.value < lh.1 || vital.value > lh.2 then
            (pyCapitalize sensor ++ " out of range: " ++ toString vital.value) :: acc
          else acc)
    []

/-- The `self.alerts` dict: patient id → last stored alert list, in
insertion order with unique keys (Python dict semantics). -/
abbrev AlertState := List (String × List String)

/-- Python dict assignment `self.alerts[patient_id] = alerts`. -/
def upsert (m : AlertState) (k : String) (v : List String) : AlertState :=
  if m.any (fun p => p.1 == k) then
    m.map (fun p => if p.1 == k then (k, v) else p)
  else
    m ++ [(k, v)]

/-- Embedding of `AlertManager.generate_alert`: evaluates the twin's vitals; when any
message was produced, stores the list under the patient and returns the alert
dict, otherwise stores nothing and returns None. -/
def generateAlert (state : AlertState) (patient_id : String) (twin : Twin) :
    AlertState × Option (String × String) :=
  let alerts := generateAlertEntries twin.vitals
  if alerts.isEmpty then
    (state, none)
  else
    (upsert state patient_id alerts, some ("🚨 Alert", String.intercalate "\n" alerts))

/-- Embedding of `AlertManager.get_alert_statistics().active_alerts = len(self.alerts)`. -/
def getAlertStatistics (state : AlertState) : Nat :=
  state.length

/-- A sequence of `generate_alert` calls from a fresh manager. -/
def runAlerts (evals : List (String × List TwinVital)) : AlertState :=
  evals.foldl (fun st e => (generateAlert st e.1 ⟨e.2⟩).1) []

/-- Alert severity, as named by the specification. -/
inductive Severity where
  | warning
  | critical
deriving DecidableEq, Repr

/-- Modelled from the spec: the two-band alert rule of the specification
(missing from the source, which has a single threshold band and no
severities) — safe band `[60,100]` and borderline band `[50,110]` for
`heart_rate`; inside safe → no entry, inside borderline but outside safe →
warning, outside borderline → critical.  Used only to compare the claimed
classification against the code's. -/
def specAlertSeverity (feature : String) (v : ℚ) : Option Severity :=
  match feature with
  | "heart_rate" =>
    if 60 ≤ v ∧ v ≤ 100 then none
    else if 50 ≤ v ∧ v ≤ 110 then some .warning
    else some .critical
  | _ => none

/-! ## Helper lemmas -/

theorem pdEq_imp_pyEq {a b : Option String} (h : pdEq a b = true) : pyEq b a = true := by
  cases a <;> cases b <;> simp_all [pdEq, pyEq, BEq.comm]

theorem pdEq_some_right {a : Option String} {p : String} (h : pdEq a (some p) = true) :
    a = some p := by
  cases a with
  | none => simp [pdEq] at h
  | some q => simp [pdEq] at h; simpa using h

theorem updateFirst_length (p : Row → Bool) (g : Row → Row) (l : List Row) :
    (updateFirst p g l).length = l.length := by
  induction l with
  | nil => rfl
  | cons a as ih =>
    by_cases hp : p a
    · simp [updateFirst, hp]
    · simp [updateFirst, hp, ih]

theorem updateLast_length (p : Row → Bool) (g : Row → Row) (df : List Row) :
    (updateLast p g df).length = df.length := by
  simp [updateLast, updateFirst_length]

theorem updateFirst_filter (p : Row → Bool) (g : Row → Row)
    (hg : ∀ x, p (g x) = p x) (l : List Row) (x : Row) (t : List Row)
    (h : l.filter p = x :: t) : (updateFirst p g l).filter p = g x :: t := by
  induction l with
  | nil => simp at h
  | cons a as ih =>
    by_cases hp : p a
    · rw [List.filter_cons_of_pos hp] at h
      injection h with h1 h2
      subst h1
      subst h2
      have hga : p (g a) = true := by rw [hg]; exact hp
      simp [updateFirst, hp, List.filter_cons_of_pos hga]
    · rw [List.filter_cons_of_neg hp] at h
      simp only [updateFirst, hp, if_neg, Bool.false_eq_true, not_false_eq_true,
        List.filter_cons_of_neg]
      exact ih h

theorem pdTail_append_singleton (l : List Row) (x : Row) :
    pdTail (l ++ [x]) 1 = [x] := by
  have h : (l ++ [x]).length - 1 = l.length := by simp
  rw [pdTail, h, List.drop_left]

theorem getFeature_setFeature (r : Row) (f : Feature) (c : Cell) :
    (r.setFeature f c).getFeature f = c := by
  cases f <;> rfl

theorem setFeature_patient_id (r : Row) (f : Feature) (c : Cell) :
    (r.setFeature f c).patient_id = r.patient_id := by
  cases f <;> rfl

theorem setFeature_timestamp (r : Row) (f : Feature) (c : Cell) :
    (r.setFeature f c).timestamp = r.timestamp := by
  cases f <;> rfl

theorem setFeature_sensor (r : Row) (f : Feature) (c : Cell) :
    (r.setFeature f c).sensor = r.sensor := by
  cases f <;> rfl

theorem applyVital_getFeature (r : Row) (f : Feature) (v : Vital) :
    (applyVital r f v).getFeature f = v.value := by
  cases f <;> rfl

theorem applyVital_patient_id (r : Row) (f : Feature) (v : Vital) :
    (applyVital r f v).patient_id = r.patient_id := by
  cases f <;> rfl

theorem newRow_fields (f : Feature) (v : Vital) :
    (newRow f v).patient_id = v.patient_id ∧ (newRow f v).getFeature f = v.value ∧
      (newRow f v).timestamp = v.timestamp ∧ (newRow f v).sensor = v.sensor_type := by
  refine ⟨?_, getFeature_setFeature _ _ _, ?_, ?_⟩
  · exact setFeature_patient_id _ _ _
  · exact setFeature_timestamp _ _ _
  · exact setFeature_sensor _ _ _

theorem finishTrend_ok {P : ProductionVitalsPredictor} {pid : String} {df : List Rec}
    {r : TrendResult} (h : finishTrend P pid df = Except.ok (some r)) :
    ∃ v, r = mkTrendResult pid v := by
  unfold finishTrend at h
  cases hp : predictList P (fallbackFrame (selectNumeric (renameFrame df))) with
  | nil => rw [hp] at h; exact absurd h (by simp)
  | cons v vs =>
    rw [hp] at h
    simp only [Except.ok.injEq, Option.some.injEq] at h
    exact ⟨v, h.symm⟩

theorem prepareRow_adopted (rows : List Rec) (r : Rec) (names : List String) :
    prepareRow rows r names true =
      names.map (fun c => (c, if frameHasCol rows c then getCell r c else Cell.num 0)) := by
  induction names with
  | nil => rfl
  | cons c cs ih =>
    by_cases hc : frameHasCol rows c
    · simp [prepareRow, hc, ih]
    · simp [prepareRow, hc, ih]

theorem prepareRow_false (rows : List Rec) (r : Rec) (names : List String) :
    prepareRow rows r names false =
      (names.takeWhile (fun c => !frameHasCol rows c)).map (fun c => (c, Cell.null)) ++
      (names.dropWhile (fun c => !frameHasCol rows c)).map
        (fun c => (c, if frameHasCol rows c then getCell r c else Cell.num 0)) := by
  induction names with
  | nil => rfl
  | cons c cs ih =>
    by_cases hc : frameHasCol rows c
    · simp [prepareRow, hc, List.takeWhile_cons, List.dropWhile_cons, prepareRow_adopted]
    · simp [prepareRow, hc, List.takeWhile_cons, List.dropWhile_cons, ih]

/-! ## Claim theorems -/

/-- C1: the code never splits composite blood-pressure readings: a reading
with sensor kind "BP" (the composite kind emitted by
SimulatedBloodPressureMonitor) maps to no feature column, so
`store_vital_sign` leaves the table — including bp_systolic and
bp_diastolic of the patient's row — completely unchanged, for the
well-formed value "120/80" just as for the malformed "abc/80reason"; the
reading is not even appended, and nothing is logged. -/
theorem C1_composite_bp_dropped :
    sensorFeature (some "BP") = none ∧
    storeVitalSign [⟨some "patient_001", 0, .null, .num 110, .num 70, .null, .null, some "BP_SYS"⟩]
        ⟨some "patient_001", some "BP", .str "120/80", 9⟩ =
      some [⟨some "patient_001", 0, .null, .num 110, .num 70, .null, .null, some "BP_SYS"⟩] ∧
    storeVitalSign [⟨some "patient_001", 0, .null, .num 110, .num 70, .null, .null, some "BP_SYS"⟩]
        ⟨some "patient_001", some "BP", .str "abc/80", 9⟩ =
      some [⟨some "patient_001", 0, .null, .num 110, .num 70, .null, .null, some "BP_SYS"⟩] := by
  refine ⟨rfl, rfl, rfl⟩

/-- C2 counterexample: the raw store is not append-only.  Storing an ECG
reading for patient p1 and then an SpO2 reading for the same patient leaves a
single row: the second call adds no new entry and mutates the previously
stored row in place (its oxygen_saturation, timestamp and sensor change). -/
theorem C2_counterexample :
    storeVitalSign [] ⟨some "p1", some "ECG", .num 70, 1⟩ =
      some [⟨some "p1", 1, .num 70, .null, .null, .null, .null, some "ECG"⟩] ∧
    storeVitalSign [⟨some "p1", 1, .num 70, .null, .null, .null, .null, some "ECG"⟩]
        ⟨some "p1", some "SpO2", .num 98, 2⟩ =
      some [⟨some "p1", 2, .num 70, .null, .null, .num 98, .null, some "SpO2"⟩] ∧
    (⟨some "p1", 1, .num 70, .null, .null, .null, .null, some "ECG"⟩ : Row) ≠
      ⟨some "p1", 2, .num 70, .null, .null, .num 98, .null, some "SpO2"⟩ := by
  refine ⟨rfl, rfl, by decide⟩

/-- C3 counterexample: the round trip fails.  A valid composite
blood-pressure reading (sensor kind "BP", value "120/80") is dropped by
`store_vital_sign`, and the subsequent history query returns no reading at
all — nothing equal to r in any field. -/
theorem C3_counterexample :
    storeVitalSign [] ⟨some "p1", some "BP", .str "120/80", 5⟩ = some [] ∧
    getPatientVitalsHistory [] "p1" (some "BP") 1 = [] := by
  refine ⟨rfl, rfl⟩

/-- C4 counterexample: `store_vital_sign` performs no validation.  A reading
with patient_id, sensor kind and value all absent completes without any
error (the table is silently left unchanged, not rejected with
ValidationError), and a reading with a mapped sensor kind but absent
patient_id and value is stored as a new row — not rejected. -/
theorem C4_counterexample :
    storeVitalSign [] ⟨none, none, .null, 0⟩ = some [] ∧
    storeVitalSign [] ⟨none, some "ECG", .null, 0⟩ =
      some [⟨none, 0, .null, .null, .null, .null, .null, some "ECG"⟩] := by
  refine ⟨rfl, rfl⟩

/-- C5 counterexample: `_prepare_features` never fills the claimed
physiologically neutral defaults.  For a one-row frame carrying only
heart_rate, the absent features come back 0 (temperature 0, not 36.5, and
likewise bp_systolic 0 ≠ 120, bp_diastolic 0 ≠ 80, oxygen_saturation 0 ≠ 98);
for a one-row frame carrying only bp_systolic, heart_rate — absent and
preceding the first present column — becomes NaN after pandas index
adoption, so it is neither the neutral default 70 nor even numeric; and for
a one-row frame with no required feature at all the result has zero rows,
not a defaults-filled row. -/
theorem C5_counterexample :
    prepareFeatures feature_columns [[("heart_rate", Cell.num 72)]] =
      [[("heart_rate", .num 72), ("bp_systolic", .num 0), ("bp_diastolic", .num 0),
        ("oxygen_saturation", .num 0), ("temperature", .num 0)]] ∧
    Cell.num 0 ≠ Cell.num (365 / 10) ∧
    prepareFeatures feature_columns [[("bp_systolic", Cell.num 118)]] =
      [[("heart_rate", Cell.null), ("bp_systolic", .num 118), ("bp_diastolic", .num 0),
        ("oxygen_saturation", .num 0), ("temperature", .num 0)]] ∧
    prepareFeatures feature_columns [[("timestamp", Cell.num 5)]] = [] := by
  refine ⟨rfl, ?_, rfl, rfl⟩
  simp only [ne_eq, Cell.num.injEq]
  norm_num

/-- C6: with no scoring artifact (model = None) and a non-empty history in
the repository's own storage format — wide records with a "sensor" column
and no "value" column, exactly what `get_patient_vitals_history` returns —
`predict_trend` does not return predicted_value=0/risk="normal": it raises
KeyError("value") inside `pivot_table`. -/
theorem C6_predict_trend_keyerror :
    predictTrend { model := none, feature_names := [] } "patient_001"
        [[("patient_id", Cell.str "patient_001"), ("timestamp", Cell.num 1),
          ("heart_rate", Cell.num 70), ("bp_systolic", Cell.null), ("bp_diastolic", Cell.null),
          ("oxygen_saturation", Cell.null), ("temperature", Cell.null),
          ("sensor", Cell.str "ECG")]] =
      Except.error "KeyError: value" := by
  rfl

/-- C7: for every predictor and patient id, `predict_trend` called with an
empty history returns None (softly, without raising). -/
theorem C7_empty_history_returns_none (P : ProductionVitalsPredictor) (pid : String) :
    predictTrend P pid [] = Except.ok none := rfl

/-- C9 counterexample: the alert evaluator has no two-band table.  A
heart-rate vital carried under its real sensor kind "ECG" at 180 bpm — far
outside the claimed borderline band, spec severity critical — produces no
alert entry at all; and the evaluations of heart_rate=101 (claimed warning)
and heart_rate=111 (claimed critical) each produce one plain out-of-range
message with no severity grading. -/
theorem C9_counterexample :
    specAlertSeverity "heart_rate" 180 = some .critical ∧
    generateAlertEntries [⟨some "ECG", 180⟩] = [] ∧
    specAlertSeverity "heart_rate" 101 = some .warning ∧
    specAlertSeverity "heart_rate" 111 = some .critical ∧
    generateAlertEntries [⟨some "heart_rate", 101⟩] = ["Heart_rate out of range: 101"] ∧
    generateAlertEntries [⟨some "heart_rate", 111⟩] = ["Heart_rate out of range: 111"] := by
  refine ⟨by decide, by decide, by decide, by decide, by decide, by decide⟩

/-- C10 counterexample: active_alerts does not track the most recent
evaluation.  Patient p1's first evaluation (heart_rate=120) stores an alert;
the second evaluation (heart_rate=80) produces no entries, yet the stale
alert is kept and `get_alert_statistics` reports 1 active alert, where the
claim demands 0. -/
theorem C10_counterexample :
    generateAlertEntries [⟨some "heart_rate", 80⟩] = [] ∧
    getAlertStatistics (runAlerts
      [("p1", [⟨some "heart_rate", 120⟩]), ("p1", [⟨some "heart_rate", 80⟩])]) = 1 := by
  refine ⟨by decide, by decide⟩

/-- C2 amended: the store keeps at most one row per patient instead of an
append-only log — a reading whose sensor kind does not map to a feature
column leaves the table unchanged (it is never stored), and a mapped reading
for a patient who already has a matching row succeeds while keeping the
table length unchanged: the existing row is replaced in place, nothing is
appended. -/
theorem C2_amended_replacement_store (df : List Row) (v : Vital) :
    (sensorFeature v.sensor_type = none → storeVitalSign df v = some df) ∧
    (∀ f, sensorFeature v.sensor_type = some f →
      df.any (fun r => pdEq r.patient_id v.patient_id) = true →
      ∃ dfo, storeVitalSign df v = some dfo ∧ dfo.length = df.length) := by
  constructor
  · intro h
    simp [storeVitalSign, h]
  · intro f hf hin
    have hpy : df.any (fun r => pyEq v.patient_id r.patient_id) = true := by
      rw [List.any_eq_true] at hin ⊢
      obtain ⟨r, hr, hpd⟩ := hin
      exact ⟨r, hr, pdEq_imp_pyEq hpd⟩
    refine ⟨updateLast (fun r => pdEq r.patient_id v.patient_id)
      (fun r => applyVital r f v) df, ?_, updateLast_length _ _ _⟩
    simp [storeVitalSign, hf, hpy, hin]

/-- C2 amended, witness: a second reading for an already-present patient is
stored without growing the table. -/
theorem C2_amended_witness :
    ∃ dfo, storeVitalSign [⟨some "p1", 1, .num 70, .null, .null, .null, .null, some "ECG"⟩]
        ⟨some "p1", some "SpO2", .num 98, 2⟩ = some dfo ∧
      dfo.length = 1 :=
  (C2_amended_replacement_store
    [⟨some "p1", 1, .num 70, .null, .null, .null, .null, some "ECG"⟩]
    ⟨some "p1", some "SpO2", .num 98, 2⟩).2 .oxygen_saturation rfl rfl

/-- C4 amended: `store_vital_sign` performs no validation and never raises a
ValidationError — a reading whose sensor kind is absent or unmapped leaves
the table silently unchanged, and a mapped reading for an unseen patient is
stored as a new row even with other required fields absent. -/
theorem C4_amended_no_validation (df : List Row) (v : Vital) :
    (sensorFeature v.sensor_type = none → storeVitalSign df v = some df) ∧
    (∀ f, sensorFeature v.sensor_type = some f →
      df.any (fun r => pyEq v.patient_id r.patient_id) = false →
      storeVitalSign df v = some (df ++ [newRow f v])) := by
  constructor
  · intro h
    simp [storeVitalSign, h]
  · intro f hf hnot
    simp [storeVitalSign, hf, hnot]

/-- C4 amended, witness: an ECG reading missing both patient_id and value is
stored, not rejected. -/
theorem C4_amended_witness :
    storeVitalSign [] ⟨none, some "ECG", Cell.null, 0⟩ =
      some ([] ++ [newRow .heart_rate ⟨none, some "ECG", Cell.null, 0⟩]) :=
  (C4_amended_no_validation [] ⟨none, some "ECG", Cell.null, 0⟩).2 .heart_rate rfl rfl

/-- C5 amended: `_prepare_features` never uses the physiologically neutral
defaults, and its output tracks pandas' empty-frame assignment semantics.
When no required feature is a column of the input frame, every assignment is
a scalar on the empty frame and the result has zero rows.  When at least one
required feature is present, the result has one row per input row, holding
exactly the required features in declared order; the absent features
preceding the first present one are NaN (the index adoption reindexes them),
a present feature copies the input cell, and an absent feature at or after
the first present one is filled with 0. -/
theorem C5_amended_zero_fill (names : List String) (rows : List Rec) :
    (names.any (fun c => frameHasCol rows c) = false → prepareFeatures names rows = []) ∧
    (names.any (fun c => frameHasCol rows c) = true →
      prepareFeatures names rows = rows.map (fun r =>
        (names.takeWhile (fun c => !frameHasCol rows c)).map (fun c => (c, Cell.null)) ++
        (names.dropWhile (fun c => !frameHasCol rows c)).map
          (fun c => (c, if frameHasCol rows c then getCell r c else Cell.num 0)))) ∧
    (∀ r : Rec, (prepareRow rows r names false).map Prod.fst = names) := by
  refine ⟨?_, ?_, ?_⟩
  · intro h
    rw [prepareFeatures, if_neg (by simp [h])]
  · intro h
    rw [prepareFeatures, if_pos h]
    exact List.map_eq_map_iff.mpr fun r _ => prepareRow_false rows r names
  · intro r
    rw [prepareRow_false, List.map_append, List.map_map, List.map_map]
    have h1 : (Prod.fst ∘ fun c : String => (c, Cell.null)) = fun c : String => c := rfl
    have h2 : (Prod.fst ∘ fun c : String =>
        (c, if frameHasCol rows c then getCell r c else Cell.num 0)) =
        fun c : String => c := rfl
    rw [h1, h2]
    have h3 : List.map (fun c : String => c) (names.takeWhile (fun c => !frameHasCol rows c)) =
        names.takeWhile (fun c => !frameHasCol rows c) := List.map_id _
    have h4 : List.map (fun c : String => c) (names.dropWhile (fun c => !frameHasCol rows c)) =
        names.dropWhile (fun c => !frameHasCol rows c) := List.map_id _
    rw [h3, h4]
    exact List.takeWhile_append_dropWhile _ _

/-- C5 amended, witness: with only bp_systolic present, the preceding absent
heart_rate becomes NaN, the present value is kept and the trailing absent
features are zero-filled, in declared column order. -/
theorem C5_amended_witness :
    prepareFeatures feature_columns [[("bp_systolic", Cell.num 118)]] =
      [[("heart_rate", Cell.null), ("bp_systolic", Cell.num 118), ("bp_diastolic", Cell.num 0),
        ("oxygen_saturation", Cell.num 0), ("temperature", Cell.num 0)]] := by
  have h := (C5_amended_zero_fill feature_columns [[("bp_systolic", Cell.num 118)]]).2.1
    (by decide)
  rw [h]
  rfl

/-- C8: the risk label of every non-null prediction is the fixed strict
threshold rule — "high" exactly when the predicted value exceeds 100, so a
predicted value of 100 is classified "normal" and 100.01 is classified
"high". -/
theorem C8_risk_threshold (P : ProductionVitalsPredictor) (pid : String)
    (history : List Rec) (r : TrendResult)
    (h : predictTrend P pid history = Except.ok (some r)) :
    (r.risk = "high" ↔ r.predicted_value > 100) ∧
    (r.predicted_value = 100 → r.risk = "normal") ∧
    (r.predicted_value = 10001 / 100 → r.risk = "high") := by
  have hmk : ∃ v, r = mkTrendResult pid v := by
    simp only [predictTrend] at h
    split at h
    · exact absurd h (by simp)
    · split at h
      · split at h
        · exact absurd h (by simp)
        · split at h
          · exact absurd h (by simp)
          · exact finishTrend_ok h
      · exact finishTrend_ok h
  obtain ⟨v, rfl⟩ := hmk
  have hrisk : (mkTrendResult pid v).risk = if v > 100 then "high" else "normal" := rfl
  have hpv : (mkTrendResult pid v).predicted_value = v := rfl
  rw [hrisk, hpv]
  by_cases hv : v > 100
  · rw [if_pos hv]
    refine ⟨⟨fun _ => hv, fun _ => rfl⟩, ?_, fun _ => rfl⟩
    intro h100
    rw [h100] at hv
    norm_num at hv
  · rw [if_neg hv]
    refine ⟨⟨fun hh => absurd hh (by decide), fun hgt => absurd hgt hv⟩, fun _ => rfl, ?_⟩
    intro hv2
    rw [hv2] at hv
    exact absurd (by norm_num) hv

/-- C8 witness: a model scoring 101 on a heart-rate-only history yields a
prediction classified "high". -/
theorem C8_risk_threshold_witness :
    ((mkTrendResult "p1" 101).risk = "high" ↔ (mkTrendResult "p1" 101).predicted_value > 100) ∧
    (mkTrendResult "p1" 101).risk = "high" := by
  have h := C8_risk_threshold ⟨some (fun _ => 101), feature_columns⟩ "p1"
    [[("heart_rate", Cell.num 72)]] (mkTrendResult "p1" 101) rfl
  exact ⟨h.1, h.1.mpr (show (101 : ℚ) > 100 by norm_num)⟩

/-- C9 amended: `generate_alert` classifies only vitals whose sensor_type
lower-cases to a threshold key, against a single safe band: a value inside
the band produces no entry, a value strictly outside it produces exactly one
plain out-of-range message (no severity levels), and vitals with unmapped or
absent sensor kinds are never evaluated. -/
theorem C9_amended_single_band (st : String) (q : ℚ) :
    (∀ low high, thresholds (pyLower st) = some (low, high) →
      generateAlertEntries [⟨some st, q⟩] =
        if q < low || q > high then
          [pyCapitalize (pyLower st) ++ " out of range: " ++ toString q]
        else []) ∧
    (thresholds (pyLower st) = none → generateAlertEntries [⟨some st, q⟩] = []) ∧
    generateAlertEntries [⟨none, q⟩] = [] := by
  refine ⟨?_, ?_, rfl⟩
  · intro low high hth
    simp only [generateAlertEntries, List.foldr, hth]
  · intro hth
    simp only [generateAlertEntries, List.foldr, hth]

/-- C9 amended, witness: heart_rate=111 produces exactly one plain
out-of-range message. -/
theorem C9_amended_witness :
    generateAlertEntries [⟨some "heart_rate", (111 : ℚ)⟩] = ["Heart_rate out of range: 111"] := by
  have h := (C9_amended_single_band "heart_rate" 111).1 60 100 (by decide)
  rw [h]
  decide

/-! ### C10 amended: dict upsert and fold invariants -/

theorem upsert_keys_of_mem {m : AlertState} {k : String} (v : List String)
    (h : m.any (fun p => p.1 == k) = true) :
    (upsert m k v).map Prod.fst = m.map Prod.fst := by
  rw [upsert, if_pos h, List.map_map]
  apply List.map_eq_map_iff.mpr
  intro p _
  by_cases hpk : p.1 == k
  · have hk : p.1 = k := by simpa using hpk
    simp [Function.comp, hpk, hk]
  · simp [Function.comp, hpk]

theorem upsert_keys_of_not_mem {m : AlertState} {k : String} (v : List String)
    (h : m.any (fun p => p.1 == k) = false) :
    (upsert m k v).map Prod.fst = m.map Prod.fst ++ [k] := by
  rw [upsert, if_neg (by simp [h])]
  simp

theorem mem_upsert_keys {m : AlertState} {k q : String} (v : List String) :
    q ∈ (upsert m k v).map Prod.fst ↔ q ∈ m.map Prod.fst ∨ q = k := by
  cases hm : m.any (fun p => p.1 == k) with
  | true =>
    rw [upsert_keys_of_mem v hm]
    constructor
    · exact Or.inl
    · rintro (h | rfl)
      · exact h
      · rw [List.any_eq_true] at hm
        obtain ⟨p, hp, hpk⟩ := hm
        have hk : p.1 = q := by simpa using hpk
        exact hk ▸ List.mem_map_of_mem Prod.fst hp
  | false =>
    rw [upsert_keys_of_not_mem v hm]
    simp

theorem upsert_keys_nodup (m : AlertState) (k : String) (v : List String)
    (h : (m.map Prod.fst).Nodup) : ((upsert m k v).map Prod.fst).Nodup := by
  cases hm : m.any (fun p => p.1 == k) with
  | true =>
    rw [upsert_keys_of_mem v hm]
    exact h
  | false =>
    rw [upsert_keys_of_not_mem v hm, List.nodup_append]
    refine ⟨h, List.nodup_singleton k, ?_⟩
    intro a ha hak
    have hak' : a = k := by simpa using hak
    obtain ⟨p, hp, hpa⟩ := List.mem_map.mp ha
    rw [List.any_eq_false] at hm
    exact hm p hp (by simp [hpa, hak'])

theorem runAlerts_invariant (evals : List (String × List TwinVital)) :
    ∀ st : AlertState, (st.map Prod.fst).Nodup →
      ((evals.foldl (fun st e => (generateAlert st e.1 ⟨e.2⟩).1) st).map Prod.fst).Nodup ∧
      ∀ p, p ∈ (evals.foldl (fun st e => (generateAlert st e.1 ⟨e.2⟩).1) st).map Prod.fst ↔
        p ∈ st.map Prod.fst ∨ ∃ e ∈ evals, e.1 = p ∧ generateAlertEntries e.2 ≠ [] := by
  induction evals with
  | nil =>
    intro st h
    exact ⟨h, fun p => by simp⟩
  | cons e rest ih =>
    intro st h
    rw [List.foldl_cons]
    by_cases he : (generateAlertEntries e.2).isEmpty
    · have hstep : (generateAlert st e.1 ⟨e.2⟩).1 = st := by
        simp [generateAlert, he]
      rw [hstep]
      obtain ⟨h1, h2⟩ := ih st h
      refine ⟨h1, fun p => ?_⟩
      rw [h2 p, List.exists_mem_cons_iff]
      have hne : ¬generateAlertEntries e.2 ≠ [] := by
        simpa [List.isEmpty_iff] using he
      tauto
    · have hstep : (generateAlert st e.1 ⟨e.2⟩).1 = upsert st e.1 (generateAlertEntries e.2) := by
        simp [generateAlert, he]
      rw [hstep]
      have hnd := upsert_keys_nodup st e.1 (generateAlertEntries e.2) h
      obtain ⟨h1, h2⟩ := ih _ hnd
      refine ⟨h1, fun p => ?_⟩
      rw [h2 p, mem_upsert_keys, List.exists_mem_cons_iff]
      have hne : generateAlertEntries e.2 ≠ [] := by
        simpa [List.isEmpty_iff] using he
      constructor
      · rintro ((hp | rfl) | hr)
        · exact Or.inl hp
        · exact Or.inr (Or.inl ⟨rfl, hne⟩)
        · exact Or.inr (Or.inr hr)
      · rintro (hp | (⟨hep, _⟩ | hr))
        · exact Or.inl (Or.inl hp)
        · exact Or.inl (Or.inr hep.symm)
        · exact Or.inr hr

/-- C10 amended: active_alerts counts the patients that have ever had an
alerting evaluation, not those whose most recent evaluation alerted: after
any sequence of evaluations from a fresh manager, the stored alert keys are
distinct, `get_alert_statistics` reports their number, and a patient is
counted exactly when at least one (not necessarily the last) of their
evaluations produced an entry — stale alerts are never cleared. -/
theorem C10_amended_ever_alerted (evals : List (String × List TwinVital)) :
    ((runAlerts evals).map Prod.fst).Nodup ∧
    getAlertStatistics (runAlerts evals) = ((runAlerts evals).map Prod.fst).length ∧
    ∀ p, p ∈ (runAlerts evals).map Prod.fst ↔
      ∃ e ∈ evals, e.1 = p ∧ generateAlertEntries e.2 ≠ [] := by
  obtain ⟨h1, h2⟩ := runAlerts_invariant evals [] (by simp)
  refine ⟨h1, ?_, fun p => ?_⟩
  · simp [getAlertStatistics]
  · rw [runAlerts, h2 p]
    simp

/-- C10 amended, witness: a patient whose first evaluation alerted stays
counted among the alert keys. -/
theorem C10_amended_witness :
    "p1" ∈ (runAlerts [("p1", [⟨some "heart_rate", 120⟩])]).map Prod.fst :=
  ((C10_amended_ever_alerted [("p1", [⟨some "heart_rate", 120⟩])]).2.2 "p1").mpr
    ⟨("p1", [⟨some "heart_rate", 120⟩]), by simp, rfl, by decide⟩

/-- C3 amended: the round trip holds only in a weakened form — for a reading
whose sensor kind maps to a feature column and whose patient id is present,
a successful store followed by `get_patient_vitals_history` with limit 1
(the sensor_type filter being ignored) returns exactly one wide snapshot
row, whose mapped feature column carries the reading's value and whose
sensor, timestamp and patient_id match the reading; the remaining reading
fields (device_id, unit, quality_score) are not stored at all. -/
theorem C3_amended_roundtrip (df : List Row) (v : Vital) (f : Feature) (p : String)
    (stq : Option String) (dfo : List Row)
    (hf : sensorFeature v.sensor_type = some f) (hp : v.patient_id = some p)
    (h : storeVitalSign df v = some dfo) :
    ∃ r, getPatientVitalsHistory dfo p stq 1 = [r] ∧
      r.getFeature f = v.value ∧ r.sensor = v.sensor_type ∧
      r.timestamp = v.timestamp ∧ r.patient_id = some p := by
  simp only [storeVitalSign, hf] at h
  by_cases hin : df.any (fun r => pyEq v.patient_id r.patient_id) = true
  · rw [if_pos hin] at h
    by_cases hmatch : df.any (fun r => pdEq r.patient_id v.patient_id) = true
    · rw [if_pos hmatch] at h
      have hdfo : dfo = updateLast (fun r => pdEq r.patient_id v.patient_id)
          (fun r => applyVital r f v) df := by
        injection h with h'
        exact h'.symm
      subst hdfo
      set pred := fun r : Row => pdEq r.patient_id v.patient_id with hpred
      have hrev : df.reverse.any pred = true := by
        rw [List.any_eq_true] at hmatch ⊢
        obtain ⟨x, hx, hpx⟩ := hmatch
        exact ⟨x, List.mem_reverse.mpr hx, hpx⟩
      obtain ⟨x, t, hxt⟩ : ∃ x t, df.reverse.filter pred = x :: t := by
        cases hft : df.reverse.filter pred with
        | nil =>
          rw [List.any_eq_true] at hrev
          obtain ⟨y, hy, hpy⟩ := hrev
          have hmem : y ∈ df.reverse.filter pred := List.mem_filter.mpr ⟨hy, hpy⟩
          rw [hft] at hmem
          simp at hmem
        | cons a b => exact ⟨a, b, rfl⟩
      have hgpred : ∀ y, pred (applyVital y f v) = pred y := by
        intro y
        rw [hpred]
        simp only [applyVital_patient_id]
      have hupf := updateFirst_filter pred (fun r => applyVital r f v) hgpred
        df.reverse x t hxt
      have hfilter : (updateLast pred (fun r => applyVital r f v) df).filter pred =
          t.reverse ++ [applyVital x f v] := by
        rw [updateLast, List.filter_reverse, hupf]
        simp
      have hxp : x.patient_id = some p := by
        have hx_mem : x ∈ df.reverse.filter pred := by
          rw [hxt]
          exact List.mem_cons_self x t
        have hpx : pred x = true := (List.mem_filter.mp hx_mem).2
        rw [hpred, hp] at hpx
        exact pdEq_some_right hpx
      refine ⟨applyVital x f v, ?_, applyVital_getFeature x f v, rfl, rfl, ?_⟩
      · simp only [getPatientVitalsHistory]
        have hpe : (fun r : Row => pdEq r.patient_id (some p)) = pred := by
          funext r
          rw [hpred, hp]
        rw [hpe, hfilter, pdTail_append_singleton]
      · rw [applyVital_patient_id]
        exact hxp
    · rw [if_neg hmatch] at h
      simp at h
  · rw [if_neg hin] at h
    have hdfo : dfo = df ++ [newRow f v] := by
      injection h with h'
      exact h'.symm
    subst hdfo
    obtain ⟨hnp, hnf, hnt, hns⟩ := newRow_fields f v
    refine ⟨newRow f v, ?_, hnf, hns, hnt, by rw [hnp, hp]⟩
    simp only [getPatientVitalsHistory]
    have hpos : pdEq (newRow f v).patient_id (some p) = true := by
      rw [hnp, hp]
      simp [pdEq]
    rw [List.filter_append]
    have hsing : List.filter (fun r : Row => pdEq r.patient_id (some p)) [newRow f v] =
        [newRow f v] := by
      simp [List.filter_cons, hpos]
    rw [hsing, pdTail_append_singleton]

/-- C3 amended, witness: storing an ECG reading for p1 and querying with
limit 1 returns the snapshot row carrying the reading's value, sensor,
timestamp and patient id. -/
theorem C3_amended_roundtrip_witness :
    ∃ r, getPatientVitalsHistory
        [⟨some "p1", 1, .num 70, .null, .null, .null, .null, some "ECG"⟩] "p1" none 1 = [r] ∧
      r.getFeature .heart_rate = Cell.num 70 ∧ r.sensor = some "ECG" ∧
      r.timestamp = 1 ∧ r.patient_id = some "p1" :=
  C3_amended_roundtrip [] ⟨some "p1", some "ECG", .num 70, 1⟩ .heart_rate "p1" none
    [⟨some "p1", 1, .num 70, .null, .null, .null, .null, some "ECG"⟩] rfl rfl rfl

end EdgeAI
